import Mathlib

/-!
Verification of the Knative channel message dispatcher
(`MessageDispatcherImpl.DispatchMessage`, `executeRequest`, `sanitizeURL`
from `pkg/channel/message_dispatcher.go`).

The Go code is shallowly embedded: the network is an oracle supplying one
`ExchangeOutcome` per `executeRequest` call (at most three calls occur per
dispatch), messages are opaque identifiers, and the dispatch function
returns an explicit trace: the structured error, the list of network calls
performed (with target, body and headers), the list of messages appended
to `messagesToFinish`, and the list of `Finish` invocations performed by
the deferred cleanup block at the return point actually taken.
-/

namespace Channel

/-- An opaque event message; only identity matters to the dispatcher. -/
abbrev Message := Nat

/-- An HTTP header set: names mapped to value lists (`nethttp.Header`). -/
abbrev Headers := List (String × List String)

/-- Model of Go's `url.URL`, restricted to the fields the dispatcher
touches: scheme, credentials (`User`), host, path and query string. -/
structure URL where
  scheme : String
  user : Option String
  host : String
  path : String
  rawQuery : String
deriving DecidableEq, Repr

/-- The scheme set installed by `NewMessageDispatcherFromConfig`:
`sets.NewString("http", "https")`. -/
def supportedSchemes : List String := ["http", "https"]

/-- `MessageDispatcherImpl.sanitizeURL`: `nil` stays `nil`; a URL whose
scheme is supported is returned unchanged; any other URL is rebuilt as
`{Scheme: "http", Host: u.Host, Path: "/"}`. -/
def sanitizeURL : Option URL → Option URL
  | none => none
  | some u =>
    if u.scheme ∈ supportedSchemes then
      some u
    else
      some { scheme := "http", user := none, host := u.host, path := "/", rawQuery := "" }

/-- Modelled from the spec: `isFailure` is referenced by `executeRequest`
but its body is not part of the provided source fragment; the spec states
"any 2xx is success; anything else is a failure". -/
def isFailure (statusCode : Nat) : Bool :=
  statusCode < 200 || 300 ≤ statusCode

/-- Modelled from the spec: the Passthrough Header Policy
(`utils.PassThroughHeaders`) is an external collaborator, "an externally
defined allow-list/prefix rule determining which response headers
propagate to the next hop"; its body is not part of the provided source
fragment. It always yields a header set (a fresh, possibly empty map). -/
def PassThroughHeaders (hs : Headers) : Headers :=
  hs.filter (fun p =>
    p.1.toLower ∈ ["content-type"] ||
    ["x-request-id", "knative-"].any (fun q => p.1.toLower.startsWith q))

/-- What the environment (request builder, transport, response decoding)
does for one `executeRequest` call: one of the three early error returns,
or a delivered HTTP response with status code, headers, and the event
decoded from the body (`none` models `binding.EncodingUnknown`). -/
inductive ExchangeOutcome where
  | newRequestError (e : String)
  | writeError (e : String)
  | sendError (e : String)
  | response (statusCode : Nat) (header : Headers) (bodyEvent : Option Message)
deriving DecidableEq, Repr

/-- The error produced by one `executeRequest` call. -/
inductive ExchangeError where
  | requestCreation (e : String)
  | requestWrite (e : String)
  | send (e : String)
  | unexpectedStatus (code : Nat)
deriving DecidableEq, Repr

/-- The `(cloudevents.Message, nethttp.Header, error)` triple returned by
`executeRequest`; `none` models a `nil` component. -/
structure ExecResult where
  message : Option Message
  headers : Option Headers
  error : Option ExchangeError
deriving DecidableEq, Repr

/-- `MessageDispatcherImpl.executeRequest`, as a function of the
environment's behaviour for this call: request-construction, write and
send errors return `(nil, nil, err)`; a non-2xx status returns
`(nil, nil, error about the status)`; a 2xx response whose body is not an
event returns `(nil, nil, nil)`; a 2xx response carrying an event returns
the event and the passthrough headers. -/
def executeRequest : ExchangeOutcome → ExecResult
  | .newRequestError e => ⟨none, none, some (.requestCreation e)⟩
  | .writeError e => ⟨none, none, some (.requestWrite e)⟩
  | .sendError e => ⟨none, none, some (.send e)⟩
  | .response statusCode header bodyEvent =>
    if isFailure statusCode then
      ⟨none, none, some (.unexpectedStatus statusCode)⟩
    else
      match bodyEvent with
      | none => ⟨none, none, none⟩
      | some m => ⟨some m, some (PassThroughHeaders header), none⟩

/-- The structured content of the four `fmt.Errorf` sites in
`DispatchMessage`: each records the target(s) it names and the underlying
cause(s). -/
inductive DispatchError where
  | destinationAndDeadLetterFailure (destination : URL) (cause : ExchangeError)
      (deadLetter : URL) (deadLetterCause : ExchangeError)
  | destinationFailure (destination : URL) (cause : ExchangeError)
  | replyAndDeadLetterFailure (reply : URL) (cause : ExchangeError)
      (deadLetter : URL) (deadLetterCause : ExchangeError)
  | replyFailure (reply : URL) (cause : ExchangeError)
deriving DecidableEq, Repr

/-- One `executeRequest` invocation as performed by `DispatchMessage`:
the target URL, the message sent as body, and the additional headers
passed along (`none` models a `nil` header map). -/
structure Call where
  target : URL
  body : Message
  headers : Option Headers
deriving DecidableEq, Repr

/-- What one `DispatchMessage` invocation did: its returned error, the
network calls in order, the messages appended to `messagesToFinish` in
order, and the `Finish` calls the deferred block performed at the return
point (each with the outcome of that `Finish`, which the code discards). -/
structure DispatchResult where
  error : Option DispatchError
  calls : List Call
  tracked : List Message
  finished : List (Message × Option String)
deriving DecidableEq, Repr

/-- The deferred cleanup loop: `for _, msg := range messagesToFinish
{ _ = msg.Finish(nil) }`, with `finishErr` the environment's outcome for
each `Finish` call (discarded by the code). -/
def finishAll (finishErr : Message → Option String) (msgs : List Message) :
    List (Message × Option String) :=
  msgs.map (fun m => (m, finishErr m))

/-- Lines 122–155 of `DispatchMessage`: the nil-carry-over early return,
the reply hop and its dead-letter fallback. `nextO` and `nextO2` are the
environment's outcomes for the next one or two `executeRequest` calls;
`mtf` and `calls` carry the state accumulated by the destination phase. -/
def afterDestination (nextO nextO2 : ExchangeOutcome)
    (finishErr : Message → Option String) (initialMessage : Message)
    (reply deadLetter : Option URL) (mtf : List Message) (calls : List Call)
    (responseMessage : Option Message)
    (responseAdditionalHeaders : Option Headers) : DispatchResult :=
  match responseMessage with
  | none =>
    -- No response, dispatch completed
    { error := none, calls := calls, tracked := mtf,
      finished := finishAll finishErr mtf }
  | some rm =>
    let mtf := mtf ++ [rm]
    match reply with
    | none =>
      -- cannot forward response as reply is empty
      { error := none, calls := calls, tracked := mtf,
        finished := finishAll finishErr mtf }
    | some rpl =>
      let rR := executeRequest nextO
      let calls := calls ++ [⟨rpl, rm, responseAdditionalHeaders⟩]
      match rR.error with
      | some err =>
        match deadLetter with
        | some dl =>
          let rD := executeRequest nextO2
          let calls := calls ++ [⟨dl, initialMessage, responseAdditionalHeaders⟩]
          match rD.error with
          | some deadLetterErr =>
            { error := some (.replyAndDeadLetterFailure rpl err dl deadLetterErr),
              calls := calls, tracked := mtf,
              finished := finishAll finishErr mtf }
          | none =>
            let mtf := mtf ++ rD.message.toList
            { error := none, calls := calls, tracked := mtf,
              finished := finishAll finishErr mtf }
        | none =>
          { error := some (.replyFailure rpl err), calls := calls,
            tracked := mtf, finished := finishAll finishErr mtf }
      | none =>
        let mtf := mtf ++ rR.message.toList
        { error := none, calls := calls, tracked := mtf,
          finished := finishAll finishErr mtf }

/-- `MessageDispatcherImpl.DispatchMessage`. `o0`, `o1`, `o2` are the
environment's outcomes for the first, second and third `executeRequest`
calls (at most three ever occur); `finishErr` is the environment's outcome
for each `Finish` call in the deferred cleanup block. -/
def DispatchMessage (o0 o1 o2 : ExchangeOutcome)
    (finishErr : Message → Option String) (initialMessage : Message)
    (initialAdditionalHeaders : Option Headers)
    (destination0 reply0 deadLetter0 : Option URL) : DispatchResult :=
  -- sanitize eventual host-only URLs
  let destination := sanitizeURL destination0
  let reply := sanitizeURL reply0
  let deadLetter := sanitizeURL deadLetter0
  match destination with
  | some dst =>
    -- Try to send to destination
    let mtf : List Message := [initialMessage]
    let r0 := executeRequest o0
    let calls : List Call := [⟨dst, initialMessage, initialAdditionalHeaders⟩]
    match r0.error with
    | some err =>
      match deadLetter with
      | some dl =>
        -- DeadLetter is configured, send the message to it
        let rDL := executeRequest o1
        let calls := calls ++ [⟨dl, initialMessage, initialAdditionalHeaders⟩]
        match rDL.error with
        | some deadLetterErr =>
          { error := some (.destinationAndDeadLetterFailure dst err dl deadLetterErr),
            calls := calls, tracked := mtf,
            finished := finishAll finishErr mtf }
        | none =>
          let mtf := mtf ++ rDL.message.toList
          { error := none, calls := calls, tracked := mtf,
            finished := finishAll finishErr mtf }
      | none =>
        -- No DeadLetter, just fail
        { error := some (.destinationFailure dst err), calls := calls,
          tracked := mtf, finished := finishAll finishErr mtf }
    | none =>
      afterDestination o1 o2 finishErr initialMessage reply deadLetter
        mtf calls r0.message r0.headers
  | none =>
    -- No destination url, try to send to reply if available
    afterDestination o0 o1 finishErr initialMessage reply deadLetter
      [] [] (some initialMessage) initialAdditionalHeaders

/-- The value `sanitizeURL` produces for a present URL. -/
def sanitizeOne (u : URL) : URL :=
  if u.scheme ∈ supportedSchemes then u
  else { scheme := "http", user := none, host := u.host, path := "/", rawQuery := "" }

/-- The event decoded from the body delivered by the environment, if any. -/
def outcomeMsg : ExchangeOutcome → Option Message
  | .response _ _ b => b
  | _ => none

/-- Replace the header set carried by a delivered-response outcome,
leaving every other outcome unchanged. -/
def withHeader : ExchangeOutcome → Headers → ExchangeOutcome
  | .response c _ b, h => .response c h b
  | o, _ => o

/-- Freshness of the environment: the response events it delivers differ
from the inbound message and from each other (in Go they are distinct
objects freshly decoded from distinct HTTP responses). -/
abbrev FreshOutcomes (o0 o1 o2 : ExchangeOutcome) (m : Message) : Prop :=
  outcomeMsg o0 ≠ some m ∧ outcomeMsg o1 ≠ some m ∧ outcomeMsg o2 ≠ some m ∧
  (outcomeMsg o0 = none ∨ outcomeMsg o0 ≠ outcomeMsg o1) ∧
  (outcomeMsg o0 = none ∨ outcomeMsg o0 ≠ outcomeMsg o2) ∧
  (outcomeMsg o1 = none ∨ outcomeMsg o1 ≠ outcomeMsg o2)

theorem sanitizeURL_some (u : URL) : sanitizeURL (some u) = some (sanitizeOne u) := by
  simp only [sanitizeURL, sanitizeOne]
  split <;> rfl

theorem sanitizeURL_none : sanitizeURL none = none := rfl

theorem executeRequest_message_sublist (o : ExchangeOutcome) :
    (executeRequest o).message.toList.Sublist (outcomeMsg o).toList := by
  cases o <;> simp [executeRequest, outcomeMsg]
  split
  · simp
  · split <;> simp

theorem finishAll_fst (f : Message → Option String) (l : List Message) :
    (finishAll f l).map Prod.fst = l := by
  induction l with
  | nil => rfl
  | cons x xs ih => simp [finishAll] at ih ⊢; exact ih

/-- C4: `sanitizeURL` maps an absent URL to absent; returns a URL whose
scheme is `http` or `https` unchanged; and rewrites every other URL to
scheme `http`, the same host, path `/`, discarding query string,
credentials, and any other path. -/
theorem sanitizeURL_normalizes :
    sanitizeURL none = none ∧
    (∀ u : URL, (u.scheme = "http" ∨ u.scheme = "https") → sanitizeURL (some u) = some u) ∧
    (∀ u : URL, ¬ (u.scheme = "http" ∨ u.scheme = "https") →
      sanitizeURL (some u) =
        some { scheme := "http", user := none, host := u.host, path := "/", rawQuery := "" }) := by
  refine ⟨rfl, ?_, ?_⟩ <;> intro u h
  · rcases h with h | h <;> simp [sanitizeURL, supportedSchemes, h]
  · push_neg at h
    simp [sanitizeURL, supportedSchemes, h.1, h.2]

/-- Witness for C4 at concrete URLs: an `https` URL with credentials,
path and query is kept verbatim; a scheme-less host-only URL becomes
`http://host/`. -/
theorem sanitizeURL_normalizes_witness :
    sanitizeURL (some ⟨"https", some "alice", "example.com", "/a/b", "q=1"⟩) =
      some ⟨"https", some "alice", "example.com", "/a/b", "q=1"⟩ ∧
    sanitizeURL (some ⟨"", some "bob", "svc.ns.svc", "/x", "r=2"⟩) =
      some ⟨"http", none, "svc.ns.svc", "/", ""⟩ :=
  ⟨sanitizeURL_normalizes.2.1 ⟨"https", some "alice", "example.com", "/a/b", "q=1"⟩
      (by decide),
   sanitizeURL_normalizes.2.2 ⟨"", some "bob", "svc.ns.svc", "/x", "r=2"⟩
      (by decide)⟩

/-- C7: with both `destination` and `reply` absent, `DispatchMessage`
returns `nil` and performs no network exchange at all, whatever the
environment, the message, the headers and the dead-letter setting are. -/
theorem DispatchMessage_no_destination_no_reply (o0 o1 o2 : ExchangeOutcome)
    (finishErr : Message → Option String) (m : Message) (h : Option Headers)
    (deadLetter0 : Option URL) :
    (DispatchMessage o0 o1 o2 finishErr m h none none deadLetter0).error = none ∧
    (DispatchMessage o0 o1 o2 finishErr m h none none deadLetter0).calls = [] := by
  cases deadLetter0 <;>
    simp [DispatchMessage, afterDestination, sanitizeURL, sanitizeURL_some]

/-- C8: `executeRequest` classifies the response status: every 2xx status
is a success (no error), and every non-2xx status yields the
unexpected-status error with nil response message and nil headers. -/
theorem executeRequest_status_classification (code : Nat) (hs : Headers)
    (b : Option Message) :
    (200 ≤ code → code < 300 →
      (executeRequest (.response code hs b)).error = none) ∧
    (¬ (200 ≤ code ∧ code < 300) →
      executeRequest (.response code hs b) =
        ⟨none, none, some (.unexpectedStatus code)⟩) := by
  constructor
  · intro h1 h2
    have hf : isFailure code = false := by
      simp only [isFailure, Bool.or_eq_false_iff, decide_eq_false_iff_not]
      omega
    cases b <;> simp [executeRequest, hf]
  · intro hne
    have hf : isFailure code = true := by
      simp only [isFailure, Bool.or_eq_true, decide_eq_true_eq]
      omega
    simp [executeRequest, hf]

/-- Witness for C8: a 204 response is accepted; a 404 response is
rejected with the unexpected-status error and nil message and headers. -/
theorem executeRequest_status_classification_witness :
    (executeRequest (.response 204 [] none)).error = none ∧
    executeRequest (.response 404 [] (some 5)) =
      ⟨none, none, some (.unexpectedStatus 404)⟩ :=
  ⟨(executeRequest_status_classification 204 [] none).1 (by decide) (by decide),
   (executeRequest_status_classification 404 [] (some 5)).2 (by decide)⟩

/-- C9: a 2xx response whose body has no recognizable event encoding
makes `executeRequest` return nil message, nil headers and nil error; and
whenever the destination exchange yields such a nil carry-over,
`DispatchMessage` returns success after that single exchange, even with
`reply` present. -/
theorem executeRequest_nonEvent_gives_nil_and_skips_reply :
    (∀ (code : Nat) (hs : Headers), 200 ≤ code → code < 300 →
      executeRequest (.response code hs none) = ⟨none, none, none⟩) ∧
    (∀ (o0 o1 o2 : ExchangeOutcome) (finishErr : Message → Option String)
      (m : Message) (h : Option Headers) (d : URL) (reply0 deadLetter0 : Option URL),
      executeRequest o0 = ⟨none, none, none⟩ →
      (DispatchMessage o0 o1 o2 finishErr m h (some d) reply0 deadLetter0).error = none ∧
      (DispatchMessage o0 o1 o2 finishErr m h (some d) reply0 deadLetter0).calls =
        [⟨sanitizeOne d, m, h⟩]) := by
  constructor
  · intro code hs h1 h2
    have hf : isFailure code = false := by
      simp only [isFailure, Bool.or_eq_false_iff, decide_eq_false_iff_not]
      omega
    simp [executeRequest, hf]
  · intro o0 o1 o2 finishErr m h d reply0 deadLetter0 h0
    simp [DispatchMessage, afterDestination, sanitizeURL_some, h0]

/-- Witness for C9: a bare 200 with a non-event body produces the nil
triple, and a dispatch whose destination answers that way stops after one
call with a nil error even though a reply target is configured. -/
theorem executeRequest_nonEvent_gives_nil_and_skips_reply_witness :
    executeRequest (.response 200 [] none) = ⟨none, none, none⟩ ∧
    (DispatchMessage (.response 200 [] none) (.response 200 [] none)
        (.response 200 [] none) (fun _ => none) 7 (some [])
        (some ⟨"http", none, "dest", "/", ""⟩)
        (some ⟨"http", none, "reply", "/", ""⟩) none).error = none ∧
    (DispatchMessage (.response 200 [] none) (.response 200 [] none)
        (.response 200 [] none) (fun _ => none) 7 (some [])
        (some ⟨"http", none, "dest", "/", ""⟩)
        (some ⟨"http", none, "reply", "/", ""⟩) none).calls =
      [⟨⟨"http", none, "dest", "/", ""⟩, 7, some []⟩] := by
  refine ⟨executeRequest_nonEvent_gives_nil_and_skips_reply.1 200 [] (by decide) (by decide),
    ?_⟩
  have hcalls := executeRequest_nonEvent_gives_nil_and_skips_reply.2
    (.response 200 [] none) (.response 200 [] none) (.response 200 [] none)
    (fun _ => none) 7 (some []) ⟨"http", none, "dest", "/", ""⟩
    (some ⟨"http", none, "reply", "/", ""⟩) none (by decide)
  exact ⟨hcalls.1, by rw [hcalls.2]; rfl⟩

/-- C5: when the destination exchange fails and a dead letter is
configured, the dead-letter exchange is attempted exactly once, with the
original message and the original headers, whatever the outcome of that
attempt is (and no reply hop is ever attempted); if the dead-letter
attempt succeeds the whole dispatch additionally returns nil. -/
theorem DispatchMessage_destinationFailure_deadLetterSuccess
    (o0 o1 o2 : ExchangeOutcome) (finishErr : Message → Option String)
    (m : Message) (h : Option Headers) (d dlu : URL) (reply0 : Option URL)
    (e : ExchangeError)
    (h0 : (executeRequest o0).error = some e) :
    (DispatchMessage o0 o1 o2 finishErr m h (some d) reply0 (some dlu)).calls =
      [⟨sanitizeOne d, m, h⟩, ⟨sanitizeOne dlu, m, h⟩] ∧
    ((executeRequest o1).error = none →
      (DispatchMessage o0 o1 o2 finishErr m h (some d) reply0 (some dlu)).error = none) := by
  constructor
  · cases h1 : (executeRequest o1).error <;>
      simp [DispatchMessage, sanitizeURL_some, h0, h1]
  · intro h1
    simp [DispatchMessage, sanitizeURL_some, h0, h1]

/-- Witness for C5: destination 500s. With a dead letter answering 202,
the dispatch makes exactly the destination call and one dead-letter call
carrying the original message and headers, and returns nil; with the
dead-letter attempt itself failing, the calls are the same two (still
exactly one dead-letter attempt with the original payload, no reply). -/
theorem DispatchMessage_destinationFailure_deadLetterSuccess_witness :
    ((DispatchMessage (.response 500 [] none) (.response 202 [] none)
        (.sendError "unused") (fun _ => none) 3 (some [("Host", ["x"])])
        (some ⟨"http", none, "dest", "/", ""⟩)
        (some ⟨"http", none, "reply", "/", ""⟩)
        (some ⟨"http", none, "dl", "/", ""⟩)).calls =
      [⟨sanitizeOne ⟨"http", none, "dest", "/", ""⟩, 3, some [("Host", ["x"])]⟩,
       ⟨sanitizeOne ⟨"http", none, "dl", "/", ""⟩, 3, some [("Host", ["x"])]⟩] ∧
     (DispatchMessage (.response 500 [] none) (.response 202 [] none)
        (.sendError "unused") (fun _ => none) 3 (some [("Host", ["x"])])
        (some ⟨"http", none, "dest", "/", ""⟩)
        (some ⟨"http", none, "reply", "/", ""⟩)
        (some ⟨"http", none, "dl", "/", ""⟩)).error = none) ∧
    (DispatchMessage (.response 500 [] none) (.sendError "dl down")
        (.sendError "unused") (fun _ => none) 3 (some [("Host", ["x"])])
        (some ⟨"http", none, "dest", "/", ""⟩)
        (some ⟨"http", none, "reply", "/", ""⟩)
        (some ⟨"http", none, "dl", "/", ""⟩)).calls =
      [⟨sanitizeOne ⟨"http", none, "dest", "/", ""⟩, 3, some [("Host", ["x"])]⟩,
       ⟨sanitizeOne ⟨"http", none, "dl", "/", ""⟩, 3, some [("Host", ["x"])]⟩] :=
  ⟨⟨(DispatchMessage_destinationFailure_deadLetterSuccess
      (.response 500 [] none) (.response 202 [] none) (.sendError "unused")
      (fun _ => none) 3 (some [("Host", ["x"])])
      ⟨"http", none, "dest", "/", ""⟩ ⟨"http", none, "dl", "/", ""⟩
      (some ⟨"http", none, "reply", "/", ""⟩)
      (.unexpectedStatus 500) (by decide)).1,
    (DispatchMessage_destinationFailure_deadLetterSuccess
      (.response 500 [] none) (.response 202 [] none) (.sendError "unused")
      (fun _ => none) 3 (some [("Host", ["x"])])
      ⟨"http", none, "dest", "/", ""⟩ ⟨"http", none, "dl", "/", ""⟩
      (some ⟨"http", none, "reply", "/", ""⟩)
      (.unexpectedStatus 500) (by decide)).2 (by decide)⟩,
   (DispatchMessage_destinationFailure_deadLetterSuccess
      (.response 500 [] none) (.sendError "dl down") (.sendError "unused")
      (fun _ => none) 3 (some [("Host", ["x"])])
      ⟨"http", none, "dest", "/", ""⟩ ⟨"http", none, "dl", "/", ""⟩
      (some ⟨"http", none, "reply", "/", ""⟩)
      (.unexpectedStatus 500) (by decide)).1⟩

/-- C6: a failing hop with no dead letter produces an error naming the
failed target and its cause; a failing hop whose dead-letter attempt also
fails produces the composite error naming both targets and both causes.
All four reporting sites are covered, for the reply hop both with the
destination absent (the reply exchange is then the first call) and with
the destination succeeding with a carry-over (the reply exchange is then
the second call). -/
theorem DispatchMessage_failure_error_reporting :
    (∀ (o0 o1 o2 : ExchangeOutcome) (f : Message → Option String) (m : Message)
      (h : Option Headers) (d : URL) (reply0 : Option URL) (e : ExchangeError),
      (executeRequest o0).error = some e →
      (DispatchMessage o0 o1 o2 f m h (some d) reply0 none).error =
        some (.destinationFailure (sanitizeOne d) e)) ∧
    (∀ (o0 o1 o2 : ExchangeOutcome) (f : Message → Option String) (m : Message)
      (h : Option Headers) (d dlu : URL) (reply0 : Option URL) (e e' : ExchangeError),
      (executeRequest o0).error = some e →
      (executeRequest o1).error = some e' →
      (DispatchMessage o0 o1 o2 f m h (some d) reply0 (some dlu)).error =
        some (.destinationAndDeadLetterFailure (sanitizeOne d) e (sanitizeOne dlu) e')) ∧
    (∀ (o0 o1 o2 : ExchangeOutcome) (f : Message → Option String) (m : Message)
      (h : Option Headers) (rplu : URL) (e : ExchangeError),
      (executeRequest o0).error = some e →
      (DispatchMessage o0 o1 o2 f m h none (some rplu) none).error =
        some (.replyFailure (sanitizeOne rplu) e)) ∧
    (∀ (o0 o1 o2 : ExchangeOutcome) (f : Message → Option String) (m rm : Message)
      (h rh : Option Headers) (d rplu : URL) (e : ExchangeError),
      executeRequest o0 = ⟨some rm, rh, none⟩ →
      (executeRequest o1).error = some e →
      (DispatchMessage o0 o1 o2 f m h (some d) (some rplu) none).error =
        some (.replyFailure (sanitizeOne rplu) e)) ∧
    (∀ (o0 o1 o2 : ExchangeOutcome) (f : Message → Option String) (m : Message)
      (h : Option Headers) (rplu dlu : URL) (e e' : ExchangeError),
      (executeRequest o0).error = some e →
      (executeRequest o1).error = some e' →
      (DispatchMessage o0 o1 o2 f m h none (some rplu) (some dlu)).error =
        some (.replyAndDeadLetterFailure (sanitizeOne rplu) e (sanitizeOne dlu) e')) ∧
    (∀ (o0 o1 o2 : ExchangeOutcome) (f : Message → Option String) (m rm : Message)
      (h rh : Option Headers) (d rplu dlu : URL) (e e' : ExchangeError),
      executeRequest o0 = ⟨some rm, rh, none⟩ →
      (executeRequest o1).error = some e →
      (executeRequest o2).error = some e' →
      (DispatchMessage o0 o1 o2 f m h (some d) (some rplu) (some dlu)).error =
        some (.replyAndDeadLetterFailure (sanitizeOne rplu) e (sanitizeOne dlu) e')) := by
  refine ⟨?_, ?_, ?_, ?_, ?_, ?_⟩
  · intro o0 o1 o2 f m h d reply0 e h0
    simp [DispatchMessage, sanitizeURL_some, sanitizeURL_none, h0]
  · intro o0 o1 o2 f m h d dlu reply0 e e' h0 h1
    simp [DispatchMessage, sanitizeURL_some, sanitizeURL_none, h0, h1]
  · intro o0 o1 o2 f m h rplu e h0
    simp [DispatchMessage, afterDestination, sanitizeURL_some, sanitizeURL_none, h0]
  · intro o0 o1 o2 f m rm h rh d rplu e h0 h1
    simp [DispatchMessage, afterDestination, sanitizeURL_some, sanitizeURL_none, h0, h1]
  · intro o0 o1 o2 f m h rplu dlu e e' h0 h1
    simp [DispatchMessage, afterDestination, sanitizeURL_some, sanitizeURL_none, h0, h1]
  · intro o0 o1 o2 f m rm h rh d rplu dlu e e' h0 h1 h2
    simp [DispatchMessage, afterDestination, sanitizeURL_some, sanitizeURL_none, h0, h1, h2]

/-- Witness for C6: each of the six reporting configurations at a
concrete environment, inspecting the structured error produced. -/
theorem DispatchMessage_failure_error_reporting_witness :
    (DispatchMessage (.sendError "down") (.sendError "x") (.sendError "x")
        (fun _ => none) 1 none (some ⟨"http", none, "d", "/", ""⟩)
        none none).error =
      some (.destinationFailure (sanitizeOne ⟨"http", none, "d", "/", ""⟩)
        (.send "down")) ∧
    (DispatchMessage (.sendError "down") (.response 500 [] none) (.sendError "x")
        (fun _ => none) 1 none (some ⟨"http", none, "d", "/", ""⟩)
        none (some ⟨"http", none, "dl", "/", ""⟩)).error =
      some (.destinationAndDeadLetterFailure (sanitizeOne ⟨"http", none, "d", "/", ""⟩)
        (.send "down") (sanitizeOne ⟨"http", none, "dl", "/", ""⟩)
        (.unexpectedStatus 500)) ∧
    (DispatchMessage (.response 503 [] none) (.sendError "x") (.sendError "x")
        (fun _ => none) 1 none none (some ⟨"http", none, "r", "/", ""⟩)
        none).error =
      some (.replyFailure (sanitizeOne ⟨"http", none, "r", "/", ""⟩)
        (.unexpectedStatus 503)) ∧
    (DispatchMessage (.response 200 [] (some 9)) (.sendError "rdown") (.sendError "x")
        (fun _ => none) 1 none (some ⟨"http", none, "d", "/", ""⟩)
        (some ⟨"http", none, "r", "/", ""⟩) none).error =
      some (.replyFailure (sanitizeOne ⟨"http", none, "r", "/", ""⟩) (.send "rdown")) ∧
    (DispatchMessage (.response 503 [] none) (.sendError "dldown") (.sendError "x")
        (fun _ => none) 1 none none (some ⟨"http", none, "r", "/", ""⟩)
        (some ⟨"http", none, "dl", "/", ""⟩)).error =
      some (.replyAndDeadLetterFailure (sanitizeOne ⟨"http", none, "r", "/", ""⟩)
        (.unexpectedStatus 503) (sanitizeOne ⟨"http", none, "dl", "/", ""⟩)
        (.send "dldown")) ∧
    (DispatchMessage (.response 200 [] (some 9)) (.sendError "rdown") (.sendError "dldown")
        (fun _ => none) 1 none (some ⟨"http", none, "d", "/", ""⟩)
        (some ⟨"http", none, "r", "/", ""⟩)
        (some ⟨"http", none, "dl", "/", ""⟩)).error =
      some (.replyAndDeadLetterFailure (sanitizeOne ⟨"http", none, "r", "/", ""⟩)
        (.send "rdown") (sanitizeOne ⟨"http", none, "dl", "/", ""⟩)
        (.send "dldown")) :=
  ⟨DispatchMessage_failure_error_reporting.1 _ _ _ _ 1 none
      ⟨"http", none, "d", "/", ""⟩ none (.send "down") (by decide),
   DispatchMessage_failure_error_reporting.2.1 _ _ _ _ 1 none
      ⟨"http", none, "d", "/", ""⟩ ⟨"http", none, "dl", "/", ""⟩ none
      (.send "down") (.unexpectedStatus 500) (by decide) (by decide),
   DispatchMessage_failure_error_reporting.2.2.1 _ _ _ _ 1 none
      ⟨"http", none, "r", "/", ""⟩ (.unexpectedStatus 503) (by decide),
   DispatchMessage_failure_error_reporting.2.2.2.1 _ _ _ _ 1 9 none
      (some (PassThroughHeaders [])) ⟨"http", none, "d", "/", ""⟩
      ⟨"http", none, "r", "/", ""⟩ (.send "rdown") (by rfl) (by decide),
   DispatchMessage_failure_error_reporting.2.2.2.2.1 _ _ _ _ 1 none
      ⟨"http", none, "r", "/", ""⟩ ⟨"http", none, "dl", "/", ""⟩
      (.unexpectedStatus 503) (.send "dldown") (by decide) (by decide),
   DispatchMessage_failure_error_reporting.2.2.2.2.2 _ _ _ _ 1 9 none
      (some (PassThroughHeaders [])) ⟨"http", none, "d", "/", ""⟩
      ⟨"http", none, "r", "/", ""⟩ ⟨"http", none, "dl", "/", ""⟩
      (.send "rdown") (.send "dldown") (by rfl) (by decide) (by decide)⟩

/-- C3: when the destination succeeds with a carry-over response, the
reply exchange fails and a dead letter is configured, the dead-letter
exchange is invoked with the original inbound message as its body —
not the destination's response — together with the carry-over headers. -/
theorem DispatchMessage_replyFailure_deadLetter_uses_original
    (o0 o1 o2 : ExchangeOutcome) (finishErr : Message → Option String)
    (m rm : Message) (h rh : Option Headers) (d rplu dlu : URL)
    (e : ExchangeError)
    (h0 : executeRequest o0 = ⟨some rm, rh, none⟩)
    (h1 : (executeRequest o1).error = some e) :
    (DispatchMessage o0 o1 o2 finishErr m h (some d) (some rplu) (some dlu)).calls =
      [⟨sanitizeOne d, m, h⟩, ⟨sanitizeOne rplu, rm, rh⟩, ⟨sanitizeOne dlu, m, rh⟩] := by
  cases h2 : (executeRequest o2).error <;>
    simp [DispatchMessage, afterDestination, sanitizeURL_some, h0, h1, h2]

/-- Witness for C3: destination returns 200 with event 9, reply 503s,
dead letter answers 202; the dead-letter call carries message 4 (the
original), not 9 (the destination's response), with carry-over headers. -/
theorem DispatchMessage_replyFailure_deadLetter_uses_original_witness :
    (DispatchMessage (.response 200 [("Content-Type", ["application/json"])] (some 9))
        (.response 503 [] none) (.response 202 [] none) (fun _ => none) 4 none
        (some ⟨"http", none, "d", "/", ""⟩)
        (some ⟨"http", none, "r", "/", ""⟩)
        (some ⟨"http", none, "dl", "/", ""⟩)).calls =
      [⟨sanitizeOne ⟨"http", none, "d", "/", ""⟩, 4, none⟩,
       ⟨sanitizeOne ⟨"http", none, "r", "/", ""⟩, 9,
         some (PassThroughHeaders [("Content-Type", ["application/json"])])⟩,
       ⟨sanitizeOne ⟨"http", none, "dl", "/", ""⟩, 4,
         some (PassThroughHeaders [("Content-Type", ["application/json"])])⟩] :=
  DispatchMessage_replyFailure_deadLetter_uses_original
    (.response 200 [("Content-Type", ["application/json"])] (some 9))
    (.response 503 [] none) (.response 202 [] none) (fun _ => none) 4 9 none
    (some (PassThroughHeaders [("Content-Type", ["application/json"])]))
    ⟨"http", none, "d", "/", ""⟩ ⟨"http", none, "r", "/", ""⟩
    ⟨"http", none, "dl", "/", ""⟩ (.unexpectedStatus 503)
    (by rfl) (by decide)

theorem afterDestination_calls_length (nextO nextO2 : ExchangeOutcome)
    (finishErr : Message → Option String) (im : Message) (rpl dl : Option URL)
    (mtf : List Message) (calls : List Call) (respMsg : Option Message)
    (respHeaders : Option Headers) :
    (afterDestination nextO nextO2 finishErr im rpl dl mtf calls
        respMsg respHeaders).calls.length ≤ calls.length + 2 := by
  unfold afterDestination
  repeat' split
  all_goals
    cases hR : (executeRequest nextO).error <;>
    cases hD : (executeRequest nextO2).error <;>
    simp [hR, hD, List.length_append]

/-- C2 amended: a dispatch performs at most three `executeRequest`
exchanges — the destination exchange, the reply exchange, and at most one
dead-letter exchange. -/
theorem DispatchMessage_at_most_three_calls (o0 o1 o2 : ExchangeOutcome)
    (finishErr : Message → Option String) (m : Message) (h : Option Headers)
    (destination0 reply0 deadLetter0 : Option URL) :
    (DispatchMessage o0 o1 o2 finishErr m h
        destination0 reply0 deadLetter0).calls.length ≤ 3 := by
  simp only [DispatchMessage]
  repeat' split
  all_goals first
    | simp
    | exact le_trans (afterDestination_calls_length _ _ _ _ _ _ _ _ _ _) (by simp)

/-- C2 counterexample: when the destination succeeds with a carry-over
event, the reply fails and a dead letter is configured, the dispatch
performs three network exchanges, not at most two. -/
theorem DispatchMessage_two_calls_counterexample :
    ¬ ((DispatchMessage (.response 200 [] (some 1)) (.sendError "reply down")
        (.sendError "dl down") (fun _ => none) 0 none
        (some ⟨"http", none, "dest", "/", ""⟩)
        (some ⟨"http", none, "reply", "/", ""⟩)
        (some ⟨"http", none, "dl", "/", ""⟩)).calls.length ≤ 2) := by
  decide

theorem executeRequest_withHeader (o : ExchangeOutcome) (h : Headers) :
    (executeRequest (withHeader o h)).error = (executeRequest o).error ∧
    (executeRequest (withHeader o h)).message = (executeRequest o).message := by
  rcases o with e | e | e | ⟨c, hh, b⟩
  · exact ⟨rfl, rfl⟩
  · exact ⟨rfl, rfl⟩
  · exact ⟨rfl, rfl⟩
  · by_cases hf : isFailure c <;> cases b <;> simp [withHeader, executeRequest, hf]

theorem afterDestination_withHeader_nextO2 (nextO nextO2 : ExchangeOutcome)
    (h : Headers) (finishErr : Message → Option String) (im : Message)
    (rpl dl : Option URL) (mtf : List Message) (calls : List Call)
    (respMsg : Option Message) (respHeaders : Option Headers) :
    afterDestination nextO (withHeader nextO2 h) finishErr im rpl dl mtf calls
        respMsg respHeaders =
      afterDestination nextO nextO2 finishErr im rpl dl mtf calls
        respMsg respHeaders := by
  unfold afterDestination
  simp only [(executeRequest_withHeader nextO2 h).1,
    (executeRequest_withHeader nextO2 h).2]

/-- C10: `executeRequest` returns a non-nil header set only alongside a
non-nil response message (a nil message always comes with nil headers);
and the headers of a dead-letter response are always discarded: the
outcome of a dispatch never depends on the header set of the response
delivered to a dead-letter exchange (the third exchange is always a
dead-letter one, and the second is whenever the first failed). -/
theorem executeRequest_headers_only_with_message :
    (∀ o : ExchangeOutcome,
      (executeRequest o).message = none → (executeRequest o).headers = none) ∧
    (∀ (o0 o1 o2 : ExchangeOutcome) (h : Headers)
      (finishErr : Message → Option String) (m : Message) (ih : Option Headers)
      (destination0 reply0 deadLetter0 : Option URL),
      DispatchMessage o0 o1 (withHeader o2 h) finishErr m ih
          destination0 reply0 deadLetter0 =
        DispatchMessage o0 o1 o2 finishErr m ih
          destination0 reply0 deadLetter0) ∧
    (∀ (o0 o1 o2 : ExchangeOutcome) (h : Headers)
      (finishErr : Message → Option String) (m : Message) (ih : Option Headers)
      (destination0 reply0 deadLetter0 : Option URL) (e : ExchangeError),
      (executeRequest o0).error = some e →
      DispatchMessage o0 (withHeader o1 h) o2 finishErr m ih
          destination0 reply0 deadLetter0 =
        DispatchMessage o0 o1 o2 finishErr m ih
          destination0 reply0 deadLetter0) := by
  refine ⟨?_, ?_, ?_⟩
  · intro o
    rcases o with e | e | e | ⟨c, hh, b⟩ <;> try exact fun _ => rfl
    by_cases hf : isFailure c <;> cases b <;> simp [executeRequest, hf]
  · intro o0 o1 o2 h finishErr m ih destination0 reply0 deadLetter0
    unfold DispatchMessage
    simp only [afterDestination_withHeader_nextO2]
  · intro o0 o1 o2 h finishErr m ih destination0 reply0 deadLetter0 e h0
    unfold DispatchMessage
    simp only [afterDestination_withHeader_nextO2, h0,
      (executeRequest_withHeader o1 h).1, (executeRequest_withHeader o1 h).2]

/-- Witness for C10: a rejected 500 response has nil message and nil
headers; and replacing the header set delivered to the dead-letter
exchange of a failed destination hop leaves the dispatch result
unchanged. -/
theorem executeRequest_headers_only_with_message_witness :
    (executeRequest (.response 500 [("A", ["b"])] (some 3))).headers = none ∧
    DispatchMessage (.sendError "down")
        (withHeader (.response 200 [("A", ["b"])] (some 3)) [("C", ["d"])])
        (.sendError "x") (fun _ => none) 0 none
        (some ⟨"http", none, "dest", "/", ""⟩) none
        (some ⟨"http", none, "dl", "/", ""⟩) =
      DispatchMessage (.sendError "down") (.response 200 [("A", ["b"])] (some 3))
        (.sendError "x") (fun _ => none) 0 none
        (some ⟨"http", none, "dest", "/", ""⟩) none
        (some ⟨"http", none, "dl", "/", ""⟩) :=
  ⟨executeRequest_headers_only_with_message.1
      (.response 500 [("A", ["b"])] (some 3)) (by decide),
   executeRequest_headers_only_with_message.2.2
      (.sendError "down") (.response 200 [("A", ["b"])] (some 3))
      (.sendError "x") [("C", ["d"])] (fun _ => none) 0 none
      (some ⟨"http", none, "dest", "/", ""⟩) none
      (some ⟨"http", none, "dl", "/", ""⟩) (.send "down") (by decide)⟩

theorem afterDestination_finished (nextO nextO2 : ExchangeOutcome)
    (finishErr : Message → Option String) (im : Message) (rpl dl : Option URL)
    (mtf : List Message) (calls : List Call) (respMsg : Option Message)
    (respHeaders : Option Headers) :
    (afterDestination nextO nextO2 finishErr im rpl dl mtf calls
        respMsg respHeaders).finished =
      finishAll finishErr
        (afterDestination nextO nextO2 finishErr im rpl dl mtf calls
          respMsg respHeaders).tracked := by
  unfold afterDestination
  repeat' split
  all_goals
    cases hR : (executeRequest nextO).error <;>
    cases hD : (executeRequest nextO2).error <;>
    simp [hR, hD]

theorem DispatchMessage_finished (o0 o1 o2 : ExchangeOutcome)
    (finishErr : Message → Option String) (m : Message) (h : Option Headers)
    (destination0 reply0 deadLetter0 : Option URL) :
    (DispatchMessage o0 o1 o2 finishErr m h
        destination0 reply0 deadLetter0).finished =
      finishAll finishErr
        (DispatchMessage o0 o1 o2 finishErr m h
          destination0 reply0 deadLetter0).tracked := by
  simp only [DispatchMessage]
  repeat' split
  all_goals first
    | rfl
    | apply afterDestination_finished

theorem afterDestination_error_indep (nextO nextO2 : ExchangeOutcome)
    (f g : Message → Option String) (im : Message) (rpl dl : Option URL)
    (mtf : List Message) (calls : List Call) (respMsg : Option Message)
    (respHeaders : Option Headers) :
    (afterDestination nextO nextO2 f im rpl dl mtf calls
        respMsg respHeaders).error =
      (afterDestination nextO nextO2 g im rpl dl mtf calls
        respMsg respHeaders).error := by
  unfold afterDestination
  repeat' split
  all_goals
    cases hR : (executeRequest nextO).error <;>
    cases hD : (executeRequest nextO2).error <;>
    simp [hR, hD]

theorem DispatchMessage_error_indep (o0 o1 o2 : ExchangeOutcome)
    (f g : Message → Option String) (m : Message) (h : Option Headers)
    (destination0 reply0 deadLetter0 : Option URL) :
    (DispatchMessage o0 o1 o2 f m h destination0 reply0 deadLetter0).error =
      (DispatchMessage o0 o1 o2 g m h destination0 reply0 deadLetter0).error := by
  simp only [DispatchMessage]
  repeat' split
  all_goals first
    | rfl
    | apply afterDestination_error_indep

theorem afterDestination_tracked_sublist (nextO nextO2 : ExchangeOutcome)
    (finishErr : Message → Option String) (im : Message) (rpl dl : Option URL)
    (mtf : List Message) (calls : List Call) (respMsg : Option Message)
    (respHeaders : Option Headers) :
    (afterDestination nextO nextO2 finishErr im rpl dl mtf calls
        respMsg respHeaders).tracked.Sublist
      (mtf ++ respMsg.toList ++ (executeRequest nextO).message.toList ++
        (executeRequest nextO2).message.toList) := by
  unfold afterDestination
  rcases respMsg with _ | rm
  · exact ((List.sublist_append_left _ _).trans (List.sublist_append_left _ _)).trans
      (List.sublist_append_left _ _)
  · rcases rpl with _ | rpl
    · exact (List.sublist_append_left _ _).trans (List.sublist_append_left _ _)
    · cases hR : (executeRequest nextO).error
      case none =>
        simp only [hR]
        exact List.sublist_append_left _ _
      case some e =>
        rcases dl with _ | dlu
        · simp only [hR]
          exact (List.sublist_append_left _ _).trans (List.sublist_append_left _ _)
        · cases hD : (executeRequest nextO2).error
          case none =>
            simp only [hR, hD]
            exact List.Sublist.append (List.sublist_append_left _ _)
              (List.Sublist.refl _)
          case some e' =>
            simp only [hR, hD]
            exact (List.sublist_append_left _ _).trans (List.sublist_append_left _ _)

theorem DispatchMessage_tracked_sublist (o0 o1 o2 : ExchangeOutcome)
    (finishErr : Message → Option String) (m : Message) (h : Option Headers)
    (destination0 reply0 deadLetter0 : Option URL) :
    (DispatchMessage o0 o1 o2 finishErr m h
        destination0 reply0 deadLetter0).tracked.Sublist
      ([m] ++ (outcomeMsg o0).toList ++ (outcomeMsg o1).toList ++
        (outcomeMsg o2).toList) := by
  simp only [DispatchMessage]
  cases hd : sanitizeURL destination0
  case none =>
    refine (afterDestination_tracked_sublist o0 o1 finishErr m _ _ [] [] (some m) h).trans ?_
    refine List.Sublist.trans ?_ (List.sublist_append_left _ _)
    exact List.Sublist.append
      (List.Sublist.append (List.Sublist.refl _) (executeRequest_message_sublist o0))
      (executeRequest_message_sublist o1)
  case some dst =>
    cases h0 : (executeRequest o0).error
    case none =>
      refine (afterDestination_tracked_sublist o1 o2 finishErr m _ _ [m] _
        (executeRequest o0).message (executeRequest o0).headers).trans ?_
      exact List.Sublist.append
        (List.Sublist.append
          (List.Sublist.append (List.Sublist.refl _) (executeRequest_message_sublist o0))
          (executeRequest_message_sublist o1))
        (executeRequest_message_sublist o2)
    case some e =>
      cases hdl : sanitizeURL deadLetter0
      case none =>
        simp only [h0, hdl]
        exact ((List.sublist_append_left _ _).trans (List.sublist_append_left _ _)).trans
          (List.sublist_append_left _ _)
      case some dlu =>
        cases h1 : (executeRequest o1).error
        case some e' =>
          simp only [h0, h1, hdl]
          exact ((List.sublist_append_left _ _).trans (List.sublist_append_left _ _)).trans
            (List.sublist_append_left _ _)
        case none =>
          simp only [h0, h1, hdl]
          refine List.Sublist.trans ?_ (List.sublist_append_left _ _)
          exact List.Sublist.append (List.sublist_append_left _ _)
            (executeRequest_message_sublist o1)

theorem FreshOutcomes_nodup (o0 o1 o2 : ExchangeOutcome) (m : Message)
    (hf : FreshOutcomes o0 o1 o2 m) :
    ([m] ++ (outcomeMsg o0).toList ++ (outcomeMsg o1).toList ++
      (outcomeMsg o2).toList).Nodup := by
  obtain ⟨h0, h1, h2, h01, h02, h12⟩ := hf
  rcases e0 : outcomeMsg o0 with _ | x0 <;>
  rcases e1 : outcomeMsg o1 with _ | x1 <;>
  rcases e2 : outcomeMsg o2 with _ | x2 <;>
  simp_all [Ne.symm, eq_comm]

/-- C1: on every return path of `DispatchMessage`, the deferred cleanup
block releases exactly the messages appended to the working set
(`messagesToFinish`), in accumulation order; and when the environment's
response events are fresh (distinct objects), no message is released
twice; and the outcome of the `Finish` calls never influences the
returned error. -/
theorem DispatchMessage_releases_tracked_exactly_once
    (o0 o1 o2 : ExchangeOutcome) (f g : Message → Option String)
    (m : Message) (h : Option Headers) (destination0 reply0 deadLetter0 : Option URL)
    (hfresh : FreshOutcomes o0 o1 o2 m) :
    ((DispatchMessage o0 o1 o2 f m h destination0 reply0 deadLetter0).finished.map
        Prod.fst =
      (DispatchMessage o0 o1 o2 f m h destination0 reply0 deadLetter0).tracked) ∧
    ((DispatchMessage o0 o1 o2 g m h destination0 reply0 deadLetter0).error =
      (DispatchMessage o0 o1 o2 f m h destination0 reply0 deadLetter0).error) ∧
    (DispatchMessage o0 o1 o2 f m h destination0 reply0 deadLetter0).tracked.Nodup := by
  refine ⟨?_, ?_, ?_⟩
  · rw [DispatchMessage_finished]
    exact finishAll_fst f _
  · exact DispatchMessage_error_indep o0 o1 o2 g f m h destination0 reply0 deadLetter0
  · exact (FreshOutcomes_nodup o0 o1 o2 m hfresh).sublist
      (DispatchMessage_tracked_sublist o0 o1 o2 f m h destination0 reply0 deadLetter0)

/-- Witness for C1 on the longest path (destination succeeds with event
21, reply succeeds with event 22): the finish sequence covers exactly the
inbound message and both responses, in order, once each, and the error is
unaffected by a failing `Finish`. -/
theorem DispatchMessage_releases_tracked_exactly_once_witness :
    ((DispatchMessage (.response 200 [] (some 21)) (.response 200 [] (some 22))
        (.sendError "unused") (fun _ => some "finish failed") 20 none
        (some ⟨"http", none, "dest", "/", ""⟩)
        (some ⟨"http", none, "reply", "/", ""⟩) none).finished.map Prod.fst =
      (DispatchMessage (.response 200 [] (some 21)) (.response 200 [] (some 22))
        (.sendError "unused") (fun _ => some "finish failed") 20 none
        (some ⟨"http", none, "dest", "/", ""⟩)
        (some ⟨"http", none, "reply", "/", ""⟩) none).tracked) ∧
    ((DispatchMessage (.response 200 [] (some 21)) (.response 200 [] (some 22))
        (.sendError "unused") (fun _ => none) 20 none
        (some ⟨"http", none, "dest", "/", ""⟩)
        (some ⟨"http", none, "reply", "/", ""⟩) none).error =
      (DispatchMessage (.response 200 [] (some 21)) (.response 200 [] (some 22))
        (.sendError "unused") (fun _ => some "finish failed") 20 none
        (some ⟨"http", none, "dest", "/", ""⟩)
        (some ⟨"http", none, "reply", "/", ""⟩) none).error) ∧
    (DispatchMessage (.response 200 [] (some 21)) (.response 200 [] (some 22))
        (.sendError "unused") (fun _ => some "finish failed") 20 none
        (some ⟨"http", none, "dest", "/", ""⟩)
        (some ⟨"http", none, "reply", "/", ""⟩) none).tracked.Nodup :=
  DispatchMessage_releases_tracked_exactly_once
    (.response 200 [] (some 21)) (.response 200 [] (some 22))
    (.sendError "unused") (fun _ => some "finish failed") (fun _ => none) 20 none
    (some ⟨"http", none, "dest", "/", ""⟩)
    (some ⟨"http", none, "reply", "/", ""⟩) none (by decide)

end Channel
